import Mathlib

/-!
Verification development for the mikroplot windowing/plotting library
(`window.cpp`, old and new revisions). The C++ drawing, screen-setup,
screenshot, key-state and constructor logic is shallowly embedded below;
GPU/windowing side effects are abstracted to the data they compute
(texture contents, stored matrices, written files), and `assert` /
`throw std::runtime_error` failures are modelled as `Option.none` /
`Except.error`.
-/

namespace Mikroplot

/-- Model of the RGBA palette entry: four colour channel bytes. -/
structure RGBA where
  r : Nat
  g : Nat
  b : Nat
  a : Nat
deriving DecidableEq, Repr

instance : Inhabited RGBA := ⟨⟨0, 0, 0, 0⟩⟩

/-- Model of `mikroplot::Grid` (`std::vector<std::vector<int>>`): a grid of
palette indices. -/
def Grid : Type := List (List Int)

/-- The four bytes pushed for one palette colour:
`mapData.push_back(color.r); ... color.g; ... color.b; ... color.a;`. -/
def pixelBytes (c : RGBA) : List Nat := [c.r, c.g, c.b, c.a]

/-- Model of the C++ conversion `int` → `size_t` followed by `% size`:
the index is reduced modulo 2^64 (two's-complement reinterpretation) and
then modulo the palette size. This is the `index = index % m_palette.size()`
line of the new `Window::drawPixels`. -/
def wrapIndex (i : Int) (n : Nat) : Nat :=
  (i % ((2 : Int) ^ 64)).toNat % n

/-- Bytes produced for one grid row by the old `Window::drawPixels` loop:
each index must pass `assert(index >= 0 && index < m_palette.size())`
(a failed assert is a fatal abort, modelled as `none`), and is then looked
up in the palette. -/
def rowBytesOld (palette : List RGBA) : List Int → Option (List Nat)
  | [] => some []
  | i :: rest =>
    if 0 ≤ i ∧ i.toNat < palette.length then
      (rowBytesOld palette rest).map (fun bs => pixelBytes (palette.getD i.toNat default) ++ bs)
    else
      none

/-- Bytes produced for the whole grid by the old `Window::drawPixels` loop. -/
def gridBytesOld (palette : List RGBA) : List (List Int) → Option (List Nat)
  | [] => some []
  | row :: rest =>
    match rowBytesOld palette row, gridBytesOld palette rest with
    | some rb, some rs => some (rb ++ rs)
    | _, _ => none

/-- Bytes produced for one grid row by the new `Window::drawPixels` loop:
`index = index % m_palette.size();` first wraps the index, then the assert
checks the wrapped value against the palette size. -/
def rowBytesNew (palette : List RGBA) : List Int → Option (List Nat)
  | [] => some []
  | i :: rest =>
    if wrapIndex i palette.length < palette.length then
      (rowBytesNew palette rest).map
        (fun bs => pixelBytes (palette.getD (wrapIndex i palette.length) default) ++ bs)
    else
      none

/-- Bytes produced for the whole grid by the new `Window::drawPixels` loop. -/
def gridBytesNew (palette : List RGBA) : List (List Int) → Option (List Nat)
  | [] => some []
  | row :: rest =>
    match rowBytesNew palette row, gridBytesNew palette rest with
    | some rb, some rs => some (rb ++ rs)
    | _, _ => none

/-- Total number of pixels in the grid: the final value of `mapWidth`
accumulated by the drawing loops (incremented once per pixel). -/
def totalPixels (pixels : List (List Int)) : Nat :=
  (pixels.map List.length).sum

/-- Old `Window::drawPixels`: walk the grid building the RGBA byte buffer
(asserting every index in range), then `assert(mapWidth != 0)`,
`assert(mapHeight != 0)`, `mapWidth /= mapHeight`, and build the texture.
The result models the texture content as (width, height, row-major bytes);
`none` models a fatal assertion failure. -/
def drawPixelsOld (palette : List RGBA) (pixels : List (List Int)) :
    Option (Nat × Nat × List Nat) :=
  match gridBytesOld palette pixels with
  | none => none
  | some data =>
    let mapWidth := totalPixels pixels
    let mapHeight := pixels.length
    if mapWidth = 0 then none
    else if mapHeight = 0 then none
    else some (mapWidth / mapHeight, mapHeight, data)

/-- New `Window::drawPixels`: identical to the old one except that every
index is first wrapped by `index = index % m_palette.size();`. -/
def drawPixelsNew (palette : List RGBA) (pixels : List (List Int)) :
    Option (Nat × Nat × List Nat) :=
  match gridBytesNew palette pixels with
  | none => none
  | some data =>
    let mapWidth := totalPixels pixels
    let mapHeight := pixels.length
    if mapWidth = 0 then none
    else if mapHeight = 0 then none
    else some (mapWidth / mapHeight, mapHeight, data)

/-- Texture content computed by the grid overload of `Window::drawSprite`
(identical per-index loop to the old `drawPixels`, with plain asserts), but
with the special case `if(pixels.size()==0)`: an empty grid is replaced by a
1x1 fully opaque white pixel instead of tripping the size asserts. -/
def drawSpriteTexture (palette : List RGBA) (pixels : List (List Int)) :
    Option (Nat × Nat × List Nat) :=
  match gridBytesOld palette pixels with
  | none => none
  | some data =>
    if pixels.length = 0 then
      some (1, 1, [0xff, 0xff, 0xff, 0xff])
    else
      let mapWidth := totalPixels pixels
      let mapHeight := pixels.length
      if mapWidth = 0 then none
      else if mapHeight = 0 then none
      else some (mapWidth / mapHeight, mapHeight, data)

/-- Predicate: some index of the grid lies outside `[0, palette size)`. -/
def hasBadIndex (palette : List RGBA) (pixels : List (List Int)) : Prop :=
  ∃ row ∈ pixels, ∃ i ∈ row, i < 0 ∨ palette.length ≤ i.toNat

instance (palette : List RGBA) (pixels : List (List Int)) :
    Decidable (hasBadIndex palette pixels) := by
  unfold hasBadIndex
  infer_instance

/-- Row-major byte sequence obtained by wrapping every index and looking it
up in the palette (the substituted colours drawn by the new `drawPixels`). -/
def wrappedRowBytes (palette : List RGBA) : List Int → List Nat
  | [] => []
  | i :: rest => pixelBytes (palette.getD (wrapIndex i palette.length) default) ++ wrappedRowBytes palette rest

/-- Whole-grid version of `wrappedRowBytes`. -/
def wrappedBytes (palette : List RGBA) : List (List Int) → List Nat
  | [] => []
  | row :: rest => wrappedRowBytes palette row ++ wrappedBytes palette rest

/-- Row-major byte sequence obtained by looking each (in-range) index up in
the palette directly; the texture content described by the specification. -/
def lookupRowBytes (palette : List RGBA) : List Int → List Nat
  | [] => []
  | i :: rest => pixelBytes (palette.getD i.toNat default) ++ lookupRowBytes palette rest

/-- Whole-grid version of `lookupRowBytes`. -/
def lookupBytes (palette : List RGBA) : List (List Int) → List Nat
  | [] => []
  | row :: rest => lookupRowBytes palette row ++ lookupBytes palette rest

/-- Model of `mikroplot::vec2`, with the `float` fields embedded as exact
rationals. -/
structure vec2 where
  x : ℚ
  y : ℚ
deriving DecidableEq, Repr

/-- The screen-range state stored by `Window::setScreen`: `m_left`,
`m_right`, `m_bottom`, `m_top` and the 16-entry `m_projection` vector, in
the order the C++ initialiser list writes it. -/
structure Screen where
  left : ℚ
  right : ℚ
  bottom : ℚ
  top : ℚ
  proj : List ℚ
deriving DecidableEq, Repr

/-- The `m_projection` value assigned by `Window::setScreen(left, right,
bottom, top)` (identical in the old and new revisions): entries listed in
the order of the C++ brace initialiser, with `m_near = -1.0f`,
`m_far = 1.0f`. -/
def mkProjection (l r b t : ℚ) : List ℚ :=
  let near : ℚ := -1
  let far : ℚ := 1
  [2 / (r - l), 0, 0, 0,
   0, 2 / (t - b), 0, 0,
   0, 0, -2 / (far - near), 0,
   0, 0, 0, 1]

/-- New `Window::setScreen(float left, float right, float bottom, float
top)` restricted to the state it stores: it returns early when the four
values already equal the stored range, and otherwise stores the range and
the projection matrix. -/
def setScreenF (s : Screen) (l r b t : ℚ) : Screen :=
  if s.left = l ∧ s.right = r ∧ s.bottom = b ∧ s.top = t then s
  else { left := l, right := r, bottom := b, top := t, proj := mkProjection l r b t }

/-- New `Window::setScreen(vec2 pos, vec2 size)`: computes `left`, `right`,
`top`, `bottom` from the centre and size and forwards them to the
four-float `setScreen` — note that the locals named `top` and `bottom` are
passed as the `bottom` and `top` parameters respectively. -/
def setScreenVec (s : Screen) (pos size : vec2) : Screen :=
  let left : ℚ := pos.x - 0.5 * size.x
  let right : ℚ := pos.x + 0.5 * size.x
  let top : ℚ := pos.y - 0.5 * size.y
  let bottom : ℚ := pos.y + 0.5 * size.y
  setScreenF s left right top bottom

/-- Application of a row-major 16-entry matrix to a homogeneous point.
The stored projection is diagonal, so the row-major and column-major
readings of the entry list coincide. -/
def applyProj (m : List ℚ) (x y z w : ℚ) : ℚ × ℚ × ℚ × ℚ :=
  (m.getD 0 0 * x + m.getD 1 0 * y + m.getD 2 0 * z + m.getD 3 0 * w,
   m.getD 4 0 * x + m.getD 5 0 * y + m.getD 6 0 * z + m.getD 7 0 * w,
   m.getD 8 0 * x + m.getD 9 0 * y + m.getD 10 0 * z + m.getD 11 0 * w,
   m.getD 12 0 * x + m.getD 13 0 * y + m.getD 14 0 * z + m.getD 15 0 * w)

/-- Invariant relating the stored projection to the stored range: either the
projection was computed from the stored range by `setScreen`, or the state
is still the constructor's initial one (all bounds zero, empty vector). -/
def ScreenInv (s : Screen) : Prop :=
  s.proj = mkProjection s.left s.right s.bottom s.top ∨
  (s.left = 0 ∧ s.right = 0 ∧ s.bottom = 0 ∧ s.top = 0 ∧ s.proj = [])

/-- The screenshot-relevant state of a `Window`: the pending filename
`m_screenshotFileName` and the list of files written so far (modelling the
`stbi_write_png` calls made by `takeScreenshot`). -/
structure ShotState where
  pending : String
  written : List String
deriving DecidableEq, Repr

/-- Model of `Window::screenshot(filename)`: it only records the pending
filename; no file is written. -/
def screenshot (filename : String) (s : ShotState) : ShotState :=
  { s with pending := filename }

/-- Model of `Window::update` restricted to its screenshot behaviour.
`closeBefore` is the result of the initial `shouldClose()` test (early
return -1, nothing written); `closeAfter` is the result of the
`glfwWindowShouldClose` test after polling (affects only the return
value). Otherwise, when the pending filename is non-empty, `takeScreenshot`
writes it and the pending name is cleared. -/
def update (closeBefore closeAfter : Bool) (s : ShotState) : ShotState × Int :=
  if closeBefore then (s, -1)
  else
    let s' := if s.pending.length > 0 then
        { pending := "", written := s.written ++ [s.pending] }
      else s
    (s', if closeAfter then -1 else 0)

/-- Model of the key maps `m_curKeys` / `m_prevKeys`
(`std::map<int,bool>`), as association lists with unique keys looked up by
`find`. -/
def KeyMap : Type := List (Int × Bool)

/-- The free function `mikroplot::keyState`: look the key code up in the
map; absent keys count as not pressed. -/
def keyState (keyMap : KeyMap) (keyCode : Int) : Bool :=
  match List.lookup keyCode keyMap with
  | none => false
  | some b => b

/-- New `Window::getKeyState`: true iff the current key map holds the key
as pressed. -/
def getKeyState (cur : KeyMap) (keyCode : Int) : Bool :=
  if keyState cur keyCode then true else false

/-- New `Window::getKeyPressed`: pressed now and not pressed at the
previous `update`. -/
def getKeyPressed (cur prev : KeyMap) (keyCode : Int) : Bool :=
  keyState cur keyCode && !keyState prev keyCode

/-- New `Window::getKeyReleased`: not pressed now and pressed at the
previous `update`. -/
def getKeyReleased (cur prev : KeyMap) (keyCode : Int) : Bool :=
  !keyState cur keyCode && keyState prev keyCode

/-- Success/failure environment for the external libraries used by the
`Window` constructor: whether `glfwInit`, `ma_engine_init` and
`glfwCreateWindow` succeed. -/
structure Env where
  glfwInitOk : Bool
  audioInitOk : Bool
  createWindowOk : Bool
deriving DecidableEq, Repr

/-- The caller-supplied data stored by a successfully constructed
`Window`: `m_width`, `m_height`, `m_palette`, `m_clearColor`. -/
structure WindowRec where
  m_width : Int
  m_height : Int
  m_palette : List RGBA
  m_clearColor : Int
deriving DecidableEq, Repr

/-- Discriminator for the constructor result. -/
def ctorOk : Except String WindowRec → Bool
  | .ok _ => true
  | .error _ => false

/-- New `Window::Window`: on the first construction (`initDone = false`)
it runs `StaticInit`, which throws if `glfwInit` or `ma_engine_init`
fails; then it creates the window and throws if the handle is null;
otherwise the member-initialiser list has stored the arguments. -/
def constructWindowNew (env : Env) (initDone : Bool) (sizeX sizeY : Int)
    (palette : List RGBA) (clearColor : Int) : Except String WindowRec :=
  if ¬initDone ∧ ¬env.glfwInitOk then .error "Failed to initialize OpenGL!"
  else if ¬initDone ∧ ¬env.audioInitOk then .error "Failed to initialize audio engine!"
  else if ¬env.createWindowOk then .error "Failed to create window!"
  else .ok ⟨sizeX, sizeY, palette, clearColor⟩

/-- Old `Window::Window`: `StaticInit` runs as a global static before
`main`, so the constructor body itself throws exactly when
`glfwCreateWindow` returns null. -/
def constructWindowOld (env : Env) (sizeX sizeY : Int)
    (palette : List RGBA) (clearColor : Int) : Except String WindowRec :=
  if ¬env.createWindowOk then .error "Failed to create window!"
  else .ok ⟨sizeX, sizeY, palette, clearColor⟩

/-- Model of `mikroplot::Constant`
(`std::pair<std::string, std::vector<float>>`): a uniform name and its
value vector (floats embedded as rationals). -/
def Constant : Type := String × List ℚ

/-- The GLSL type name the uniform-declaration loop selects for a value
vector of the given length. -/
def glslType (len : Nat) : String :=
  if len = 1 then "float"
  else if len = 2 then "vec2"
  else if len = 3 then "vec3"
  else "vec4"

/-- One iteration of the `inputUniforms` loop shared by the old
`Window::shade` and the old low-level `Window::drawSprite`: a value vector
of length 1..4 appends the matching uniform declaration, any other length
hits `assert(0)` (modelled as `none`). -/
def constantDecl (name : String) (len : Nat) : Option String :=
  if len = 1 then some ("uniform float " ++ name ++ ";\n")
  else if len = 2 then some ("uniform vec2 " ++ name ++ ";\n")
  else if len = 3 then some ("uniform vec3 " ++ name ++ ";\n")
  else if len = 4 then some ("uniform vec4 " ++ name ++ ";\n")
  else none

/-- The whole `inputUniforms` accumulation loop over the input constants. -/
def inputUniforms : List Constant → Option String
  | [] => some ""
  | c :: rest =>
    match constantDecl c.1 c.2.length, inputUniforms rest with
    | some d, some r => some (d ++ r)
    | _, _ => none

/-- Modelled from the spec's words for comparison with `inputUniforms`:
every constant is declared as a uniform of the GLSL type matching its
value-vector length. -/
def specUniforms : List Constant → String
  | [] => ""
  | c :: rest => "uniform " ++ glslType c.2.length ++ " " ++ c.1 ++ ";\n" ++ specUniforms rest

theorem rowBytesOld_of_bad (palette : List RGBA) (row : List Int)
    (h : ∃ i ∈ row, i < 0 ∨ palette.length ≤ i.toNat) :
    rowBytesOld palette row = none := by
  induction row with
  | nil => simp at h
  | cons i rest ih =>
    rcases h with ⟨j, hj, hbad⟩
    rcases List.mem_cons.mp hj with rfl | hj
    · have hc : ¬(0 ≤ j ∧ j.toNat < palette.length) := by
        rintro ⟨h0, hlt⟩
        rcases hbad with hb | hb
        · omega
        · omega
      simp [rowBytesOld, hc]
    · by_cases hc : 0 ≤ i ∧ i.toNat < palette.length
      · simp [rowBytesOld, hc, ih ⟨j, hj, hbad⟩]
      · simp [rowBytesOld, hc]

theorem gridBytesOld_of_bad (palette : List RGBA) (pixels : List (List Int))
    (h : hasBadIndex palette pixels) :
    gridBytesOld palette pixels = none := by
  induction pixels with
  | nil => simp [hasBadIndex] at h
  | cons row rest ih =>
    rcases h with ⟨row', hrow', hbad⟩
    rcases List.mem_cons.mp hrow' with rfl | hmem
    · cases hg : gridBytesOld palette rest <;>
        simp [gridBytesOld, rowBytesOld_of_bad palette row' hbad, hg]
    · cases hr : rowBytesOld palette row <;>
        simp [gridBytesOld, hr, ih ⟨row', hmem, hbad⟩]

theorem rowBytesOld_of_inRange (palette : List RGBA) (row : List Int)
    (h : ∀ i ∈ row, 0 ≤ i ∧ i.toNat < palette.length) :
    rowBytesOld palette row = some (lookupRowBytes palette row) := by
  induction row with
  | nil => rfl
  | cons i rest ih =>
    have hi := h i (List.mem_cons_self i rest)
    have hrest : ∀ j ∈ rest, 0 ≤ j ∧ j.toNat < palette.length :=
      fun j hj => h j (List.mem_cons_of_mem i hj)
    simp only [rowBytesOld, lookupRowBytes]
    rw [if_pos hi, ih hrest]
    rfl

theorem gridBytesOld_of_inRange (palette : List RGBA) (pixels : List (List Int))
    (h : ∀ row ∈ pixels, ∀ i ∈ row, 0 ≤ i ∧ i.toNat < palette.length) :
    gridBytesOld palette pixels = some (lookupBytes palette pixels) := by
  induction pixels with
  | nil => rfl
  | cons row rest ih =>
    have hrow := h row (List.mem_cons_self row rest)
    have hrest : ∀ r ∈ rest, ∀ i ∈ r, 0 ≤ i ∧ i.toNat < palette.length :=
      fun r hr => h r (List.mem_cons_of_mem row hr)
    simp only [gridBytesOld, lookupBytes]
    rw [rowBytesOld_of_inRange palette row hrow, ih hrest]

theorem rowBytesNew_of_nonempty (palette : List RGBA) (hp : palette ≠ [])
    (row : List Int) :
    rowBytesNew palette row = some (wrappedRowBytes palette row) := by
  have hlen : 0 < palette.length := List.length_pos.mpr hp
  induction row with
  | nil => rfl
  | cons i rest ih =>
    have hc : wrapIndex i palette.length < palette.length := Nat.mod_lt _ hlen
    simp only [rowBytesNew, wrappedRowBytes]
    rw [if_pos hc, ih]
    rfl

theorem gridBytesNew_of_nonempty (palette : List RGBA) (hp : palette ≠ [])
    (pixels : List (List Int)) :
    gridBytesNew palette pixels = some (wrappedBytes palette pixels) := by
  induction pixels with
  | nil => rfl
  | cons row rest ih =>
    simp only [gridBytesNew, wrappedBytes]
    rw [rowBytesNew_of_nonempty palette hp row, ih]

theorem wrapIndex_of_inRange (i : Int) (n : Nat) (h0 : 0 ≤ i) (hn : i.toNat < n)
    (hbound : n ≤ 2 ^ 64) :
    wrapIndex i n = i.toNat := by
  unfold wrapIndex
  have h1 : i < (2 : Int) ^ 64 := by
    have h2 : (i.toNat : Int) = i := Int.toNat_of_nonneg h0
    have h3 : i.toNat < 2 ^ 64 := lt_of_lt_of_le hn hbound
    omega
  rw [Int.emod_eq_of_lt h0 h1]
  exact Nat.mod_eq_of_lt hn

theorem wrappedRowBytes_eq_lookup (palette : List RGBA) (row : List Int)
    (hbound : palette.length ≤ 2 ^ 64)
    (h : ∀ i ∈ row, 0 ≤ i ∧ i.toNat < palette.length) :
    wrappedRowBytes palette row = lookupRowBytes palette row := by
  induction row with
  | nil => rfl
  | cons i rest ih =>
    have hi := h i (List.mem_cons_self i rest)
    have hrest : ∀ j ∈ rest, 0 ≤ j ∧ j.toNat < palette.length :=
      fun j hj => h j (List.mem_cons_of_mem i hj)
    simp only [wrappedRowBytes, lookupRowBytes]
    rw [wrapIndex_of_inRange i palette.length hi.1 hi.2 hbound, ih hrest]

theorem wrappedBytes_eq_lookup (palette : List RGBA) (pixels : List (List Int))
    (hbound : palette.length ≤ 2 ^ 64)
    (h : ∀ row ∈ pixels, ∀ i ∈ row, 0 ≤ i ∧ i.toNat < palette.length) :
    wrappedBytes palette pixels = lookupBytes palette pixels := by
  induction pixels with
  | nil => rfl
  | cons row rest ih =>
    have hrow := h row (List.mem_cons_self row rest)
    have hrest : ∀ r ∈ rest, ∀ i ∈ r, 0 ≤ i ∧ i.toNat < palette.length :=
      fun r hr => h r (List.mem_cons_of_mem row hr)
    simp only [wrappedBytes, lookupBytes]
    rw [wrappedRowBytes_eq_lookup palette row hbound hrow, ih hrest]

theorem totalPixels_of_rect (L : Nat) :
    ∀ pixels : List (List Int), (∀ row ∈ pixels, row.length = L) →
      totalPixels pixels = pixels.length * L
  | [], _ => by simp [totalPixels]
  | row :: rest, h => by
    have h1 := h row (List.mem_cons_self row rest)
    have h2 : ∀ r ∈ rest, r.length = L := fun r hr => h r (List.mem_cons_of_mem row hr)
    have h3 := totalPixels_of_rect L rest h2
    simp only [totalPixels, List.map_cons, List.sum_cons, List.length_cons] at *
    rw [h1, h3]
    ring

theorem length_pos_of_totalPixels (pixels : List (List Int))
    (h : 0 < totalPixels pixels) : pixels.length ≠ 0 := by
  intro hlen
  rw [List.length_eq_zero] at hlen
  subst hlen
  simp [totalPixels] at h

/-- Claim C1, counterexample: the grid `[[5]]` is non-empty and its index 5
lies outside `[0, 2)` for a two-entry palette, yet the new
`Window::drawPixels` is not a fatal abort: it silently draws the
substituted colour `palette[5 % 2] = palette[1]`. -/
theorem c1_counterexample :
    hasBadIndex [⟨1, 2, 3, 4⟩, ⟨10, 20, 30, 40⟩] [[5]] ∧
    drawPixelsNew [⟨1, 2, 3, 4⟩, ⟨10, 20, 30, 40⟩] [[5]] = some (1, 1, [10, 20, 30, 40]) := by
  constructor
  · decide
  · decide

/-- Claim C1, amended: a call to the old `Window::drawPixels` on a grid
containing a palette index outside `[0, palette size)` is a fatal
assertion failure; the new `Window::drawPixels` instead reduces every
index modulo the palette size and silently draws the substituted colours
whenever the palette is non-empty and the grid holds at least one pixel. -/
theorem c1_amended (palette : List RGBA) (pixels : List (List Int)) :
    (hasBadIndex palette pixels → drawPixelsOld palette pixels = none) ∧
    (palette ≠ [] → 0 < totalPixels pixels →
      drawPixelsNew palette pixels =
        some (totalPixels pixels / pixels.length, pixels.length, wrappedBytes palette pixels)) := by
  constructor
  · intro hbad
    unfold drawPixelsOld
    rw [gridBytesOld_of_bad palette pixels hbad]
  · intro hp htot
    unfold drawPixelsNew
    rw [gridBytesNew_of_nonempty palette hp pixels]
    simp only
    rw [if_neg (Nat.pos_iff_ne_zero.mp htot), if_neg (length_pos_of_totalPixels pixels htot)]

/-- Claim C1, witness for the amended theorem at the two-entry palette and
the single out-of-range index 5. -/
theorem c1_amended_witness :
    drawPixelsOld [⟨1, 2, 3, 4⟩, ⟨10, 20, 30, 40⟩] [[5]] = none ∧
    drawPixelsNew [⟨1, 2, 3, 4⟩, ⟨10, 20, 30, 40⟩] [[5]] =
      some (totalPixels [[5]] / ([[(5 : Int)]] : List (List Int)).length,
        ([[(5 : Int)]] : List (List Int)).length,
        wrappedBytes [⟨1, 2, 3, 4⟩, ⟨10, 20, 30, 40⟩] [[5]]) :=
  ⟨(c1_amended [⟨1, 2, 3, 4⟩, ⟨10, 20, 30, 40⟩] [[5]]).1 (by decide),
   (c1_amended [⟨1, 2, 3, 4⟩, ⟨10, 20, 30, 40⟩] [[5]]).2 (by decide) (by decide)⟩

/-- Claim C3, counterexample: passing an empty pixel grid to the grid
overload of `Window::drawSprite` — a drawing operation that takes a pixel
grid — is not a fatal abort: it draws a substituted 1x1 opaque white
texture. -/
theorem c3_counterexample :
    drawSpriteTexture [⟨1, 2, 3, 4⟩] [] = some (1, 1, [0xff, 0xff, 0xff, 0xff]) ∧
    drawSpriteTexture [⟨1, 2, 3, 4⟩] [] ≠ none := by
  constructor
  · decide
  · decide

/-- Claim C3, amended: an empty pixel grid passed to `Window::drawPixels`
(old or new revision) is a fatal assertion failure, but the grid overload
of `Window::drawSprite` instead substitutes a 1x1 opaque white texture and
draws it. -/
theorem c3_amended (palette : List RGBA) :
    drawPixelsOld palette [] = none ∧
    drawPixelsNew palette [] = none ∧
    drawSpriteTexture palette [] = some (1, 1, [0xff, 0xff, 0xff, 0xff]) :=
  ⟨rfl, rfl, rfl⟩

/-- Claim C4: on a non-empty rectangular grid whose indices all lie in
`[0, palette size)`, the old and the new `Window::drawPixels` compute the
same texture: width the common row length, height the number of rows, and
the row-major RGBA bytes obtained by palette lookup. (The palette bound
`2 ^ 64` embeds the C++ `size_t` range of `m_palette.size()`.) -/
theorem c4_drawPixels_equiv (palette : List RGBA) (pixels : List (List Int)) (L : Nat)
    (hne : pixels ≠ [])
    (hrect : ∀ row ∈ pixels, row.length = L)
    (hL : 0 < L)
    (hbound : palette.length ≤ 2 ^ 64)
    (hrange : ∀ row ∈ pixels, ∀ i ∈ row, 0 ≤ i ∧ i.toNat < palette.length) :
    drawPixelsOld palette pixels = drawPixelsNew palette pixels ∧
    drawPixelsOld palette pixels = some (L, pixels.length, lookupBytes palette pixels) := by
  have hn : pixels.length ≠ 0 := fun h => hne (List.length_eq_zero.mp h)
  have htot : totalPixels pixels = pixels.length * L := totalPixels_of_rect L pixels hrect
  have hw : totalPixels pixels ≠ 0 := by
    rw [htot]
    exact Nat.mul_ne_zero hn (Nat.pos_iff_ne_zero.mp hL)
  have hp : palette ≠ [] := by
    cases pixels with
    | nil => exact absurd rfl hne
    | cons row rest =>
      cases row with
      | nil =>
        have := hrect [] (List.mem_cons_self [] rest)
        simp at this
        omega
      | cons i irest =>
        have hi := hrange (i :: irest) (List.mem_cons_self _ rest) i (List.mem_cons_self i irest)
        intro hnil
        rw [hnil] at hi
        simp at hi
  have hdiv : totalPixels pixels / pixels.length = L := by
    rw [htot]
    exact Nat.mul_div_cancel_left L (Nat.pos_of_ne_zero hn)
  have hold : drawPixelsOld palette pixels = some (L, pixels.length, lookupBytes palette pixels) := by
    unfold drawPixelsOld
    rw [gridBytesOld_of_inRange palette pixels hrange]
    simp only
    rw [if_neg hw, if_neg hn, hdiv]
  have hnew : drawPixelsNew palette pixels = some (L, pixels.length, lookupBytes palette pixels) := by
    unfold drawPixelsNew
    rw [gridBytesNew_of_nonempty palette hp pixels,
      wrappedBytes_eq_lookup palette pixels hbound hrange]
    simp only
    rw [if_neg hw, if_neg hn, hdiv]
  exact ⟨hold.trans hnew.symm, hold⟩

/-- Claim C4, witness at a 2x2 grid over a two-entry palette. -/
theorem c4_witness :
    drawPixelsOld [⟨1, 2, 3, 4⟩, ⟨10, 20, 30, 40⟩] [[0, 1], [1, 0]] =
      drawPixelsNew [⟨1, 2, 3, 4⟩, ⟨10, 20, 30, 40⟩] [[0, 1], [1, 0]] ∧
    drawPixelsOld [⟨1, 2, 3, 4⟩, ⟨10, 20, 30, 40⟩] [[0, 1], [1, 0]] =
      some (2, ([[0, 1], [1, 0]] : List (List Int)).length,
        lookupBytes [⟨1, 2, 3, 4⟩, ⟨10, 20, 30, 40⟩] [[0, 1], [1, 0]]) :=
  c4_drawPixels_equiv [⟨1, 2, 3, 4⟩, ⟨10, 20, 30, 40⟩] [[0, 1], [1, 0]] 2
    (by decide) (by decide) (by decide) (by norm_num) (by decide)

/-- Claim C9: the grid overload of `Window::drawSprite` applied to an empty
grid does not abort — it substitutes a 1x1 texture holding a single fully
opaque white pixel (RGBA bytes 0xff,0xff,0xff,0xff) and draws with it. -/
theorem c9_drawSprite_empty (palette : List RGBA) :
    drawSpriteTexture palette [] = some (1, 1, [0xff, 0xff, 0xff, 0xff]) :=
  rfl

/-- Claim C10: in the new key tracking, `getKeyPressed` and
`getKeyReleased` are never both true for the same key against the same
current/previous maps, and `getKeyPressed` true implies `getKeyState`
true. -/
theorem c10_key_invariants (cur prev : KeyMap) (keyCode : Int) :
    (getKeyPressed cur prev keyCode && getKeyReleased cur prev keyCode) = false ∧
    (getKeyPressed cur prev keyCode && !getKeyState cur keyCode) = false := by
  unfold getKeyPressed getKeyReleased getKeyState
  cases keyState cur keyCode <;> cases keyState prev keyCode <;> simp

/-- Claim C5: `Window::screenshot` writes no file and only records the
pending filename; the next `Window::update` that does not return early
because the window should close writes the file and clears the request;
an early-returning `update` writes nothing; and any update after the
writing one writes no further screenshot. -/
theorem c5_screenshot (s : ShotState) (f : String) (c2 c3 c4 : Bool)
    (hf : 0 < f.length) :
    (screenshot f s).written = s.written ∧
    (screenshot f s).pending = f ∧
    (update true c2 (screenshot f s)).1 = screenshot f s ∧
    (update false c2 (screenshot f s)).1.written = s.written ++ [f] ∧
    (update false c2 (screenshot f s)).1.pending = "" ∧
    (update c3 c4 (update false c2 (screenshot f s)).1).1.written = s.written ++ [f] := by
  refine ⟨rfl, rfl, rfl, ?_, ?_, ?_⟩
  · simp [update, screenshot, hf]
  · simp [update, screenshot, hf]
  · cases c3 <;> simp [update, screenshot, hf]

/-- Claim C5, witness at a fresh window state and the filename
"shot.png". -/
theorem c5_witness :
    (screenshot "shot.png" ⟨"", []⟩).written = [] ∧
    (screenshot "shot.png" ⟨"", []⟩).pending = "shot.png" ∧
    (update true false (screenshot "shot.png" ⟨"", []⟩)).1 = screenshot "shot.png" ⟨"", []⟩ ∧
    (update false false (screenshot "shot.png" ⟨"", []⟩)).1.written = [] ++ ["shot.png"] ∧
    (update false false (screenshot "shot.png" ⟨"", []⟩)).1.pending = "" ∧
    (update false false (update false false (screenshot "shot.png" ⟨"", []⟩)).1).1.written =
      [] ++ ["shot.png"] :=
  c5_screenshot ⟨"", []⟩ "shot.png" false false false (by decide)

/-- Claim C6: `Window::setScreen(pos, size)` establishes the range
`m_left = pos.x - size.x/2`, `m_right = pos.x + size.x/2`,
`m_bottom = pos.y - size.y/2`, `m_top = pos.y + size.y/2` (the locals
named `top` and `bottom` are swapped, but so are the argument positions,
so the stored fields come out as claimed). -/
theorem c6_setScreen_vec (s : Screen) (pos size : vec2) :
    (setScreenVec s pos size).left = pos.x - size.x / 2 ∧
    (setScreenVec s pos size).right = pos.x + size.x / 2 ∧
    (setScreenVec s pos size).bottom = pos.y - size.y / 2 ∧
    (setScreenVec s pos size).top = pos.y + size.y / 2 := by
  simp only [setScreenVec, setScreenF]
  split_ifs with h
  · refine ⟨?_, ?_, ?_, ?_⟩
    · rw [h.1]; ring
    · rw [h.2.1]; ring
    · rw [h.2.2.1]; ring
    · rw [h.2.2.2]; ring
  · refine ⟨?_, ?_, ?_, ?_⟩ <;> simp only [] <;> ring

/-- Claim C7: in the uniform-declaration loop shared by the old
`Window::shade` and the old low-level `Window::drawSprite`, a constant
whose value vector has length outside 1..4 hits `assert(0)`, and when all
lengths lie in 1..4 the loop succeeds and declares each constant as a
uniform of the matching GLSL type. -/
theorem c7_input_uniforms (cs : List Constant) :
    ((∃ c ∈ cs, c.2.length < 1 ∨ 4 < c.2.length) → inputUniforms cs = none) ∧
    ((∀ c ∈ cs, 1 ≤ c.2.length ∧ c.2.length ≤ 4) →
      inputUniforms cs = some (specUniforms cs)) := by
  induction cs with
  | nil =>
    constructor
    · rintro ⟨c, hc, _⟩
      simp at hc
    · intro
      rfl
  | cons c rest ih =>
    constructor
    · rintro ⟨c', hc', hbad⟩
      rcases List.mem_cons.mp hc' with rfl | hmem
      · have hd : constantDecl c'.1 c'.2.length = none := by
          rcases hbad with hb | hb <;>
            (unfold constantDecl; split_ifs <;> first | rfl | omega)
        cases hrest : inputUniforms rest <;> simp [inputUniforms, hd, hrest]
      · have hrest := ih.1 ⟨c', hmem, hbad⟩
        cases hd : constantDecl c.1 c.2.length <;> simp [inputUniforms, hd, hrest]
    · intro hgood
      have hc := hgood c (List.mem_cons_self c rest)
      have hrest := ih.2 fun c' hc' => hgood c' (List.mem_cons_of_mem c hc')
      have hd : constantDecl c.1 c.2.length =
          some ("uniform " ++ glslType c.2.length ++ " " ++ c.1 ++ ";\n") := by
        rcases hc with ⟨h1, h4⟩
        interval_cases h : c.2.length <;> simp [constantDecl, glslType]
      simp only [inputUniforms, specUniforms, hd, hrest]

/-- Claim C7, witness: a length-5 vector aborts; a float and a vec2
constant are declared with their matching GLSL types. -/
theorem c7_witness :
    inputUniforms [("k", [1, 2, 3, 4, 5])] = none ∧
    inputUniforms [("k", [1]), ("m", [1, 2])] =
      some (specUniforms [("k", [1]), ("m", [1, 2])]) :=
  ⟨(c7_input_uniforms [("k", [1, 2, 3, 4, 5])]).1 (by decide),
   (c7_input_uniforms [("k", [1]), ("m", [1, 2])]).2 (by decide)⟩

theorem setScreenF_proj (s : Screen) (l r b t : ℚ) (hInv : ScreenInv s) (hlr : l ≠ r) :
    (setScreenF s l r b t).proj = mkProjection l r b t := by
  unfold setScreenF
  split
  next h =>
    rcases hInv with h1 | h2
    · rw [h1, h.1, h.2.1, h.2.2.1, h.2.2.2]
    · exact absurd (by rw [← h.1, ← h.2.1, h2.1, h2.2.1]) hlr
  next => rfl

theorem setScreenF_inv (s : Screen) (l r b t : ℚ) (hInv : ScreenInv s) :
    ScreenInv (setScreenF s l r b t) := by
  unfold setScreenF
  split
  next => exact hInv
  next => exact Or.inl rfl

theorem applyProj_mkProjection_corners (l r b t : ℚ)
    (hlr : l < r) (hbt : b < t) (hl : l + r = 0) (hb : b + t = 0) :
    applyProj (mkProjection l r b t) l b 0 1 = (-1, -1, 0, 1) ∧
    applyProj (mkProjection l r b t) r t 0 1 = (1, 1, 0, 1) := by
  have hr : r = -l := by linarith
  have ht : t = -b := by linarith
  subst hr ht
  have hl0 : l < 0 := by linarith
  have hb0 : b < 0 := by linarith
  have hl' : -l - l ≠ 0 := by intro h; exact ne_of_lt hl0 (by linarith)
  have hb' : -b - b ≠ 0 := by intro h; exact ne_of_lt hb0 (by linarith)
  constructor <;>
    (simp only [mkProjection, applyProj, List.getD, List.get?, Option.getD,
      Prod.mk.injEq]
     refine ⟨?_, ?_, ?_, ?_⟩ <;> field_simp <;> ring)

/-- Claim C2, counterexample: after `setScreen(0, 2, 0, 2)` (a valid range
with left < right and bottom < top) the stored `m_projection` maps the
point (left, bottom) = (0, 0) to (0, 0), not to the normalized corner
(-1, -1): the stored matrix has no translation entries. -/
theorem c2_counterexample :
    (0 : ℚ) < 2 ∧
    (applyProj (setScreenF ⟨0, 0, 0, 0, []⟩ 0 2 0 2).proj 0 0 0 1).1 = 0 ∧
    (applyProj (setScreenF ⟨0, 0, 0, 0, []⟩ 0 2 0 2).proj 0 0 0 1).1 ≠ -1 := by
  refine ⟨by norm_num, ?_, ?_⟩ <;>
    simp [setScreenF, mkProjection, applyProj]

/-- Claim C2, amended: `setScreen(left, right, bottom, top)` stores as
`m_projection` the pure scaling matrix `mkProjection` (diagonal entries
2/(right-left), 2/(top-bottom), -1, 1 and no translation); it maps
(left, bottom) to (-1, -1) and (right, top) to (1, 1) exactly in the
centred case left + right = 0 and bottom + top = 0, given any state
satisfying the stored-projection invariant. -/
theorem c2_amended (s : Screen) (l r b t : ℚ)
    (hInv : ScreenInv s) (hlr : l < r) (hbt : b < t) (hl : l + r = 0) (hb : b + t = 0) :
    (setScreenF s l r b t).proj = mkProjection l r b t ∧
    applyProj ((setScreenF s l r b t).proj) l b 0 1 = (-1, -1, 0, 1) ∧
    applyProj ((setScreenF s l r b t).proj) r t 0 1 = (1, 1, 0, 1) := by
  have hproj := setScreenF_proj s l r b t hInv (ne_of_lt hlr)
  have hcorners := applyProj_mkProjection_corners l r b t hlr hbt hl hb
  exact ⟨hproj, by rw [hproj]; exact hcorners.1, by rw [hproj]; exact hcorners.2⟩

/-- Claim C2, witness for the amended theorem at the centred range
(-1, 1) x (-2, 2) from the constructor's initial state. -/
theorem c2_witness :
    (setScreenF ⟨0, 0, 0, 0, []⟩ (-1) 1 (-2) 2).proj = mkProjection (-1) 1 (-2) 2 ∧
    applyProj ((setScreenF ⟨0, 0, 0, 0, []⟩ (-1) 1 (-2) 2).proj) (-1) (-2) 0 1 = (-1, -1, 0, 1) ∧
    applyProj ((setScreenF ⟨0, 0, 0, 0, []⟩ (-1) 1 (-2) 2).proj) 1 2 0 1 = (1, 1, 0, 1) :=
  c2_amended ⟨0, 0, 0, 0, []⟩ (-1) 1 (-2) 2
    (Or.inr ⟨rfl, rfl, rfl, rfl, rfl⟩) (by norm_num) (by norm_num) (by norm_num) (by norm_num)

/-- Claim C8, counterexample: on the first construction the new
`Window::Window` throws even though window creation would succeed, because
the lazily-run `StaticInit` fails to initialise the audio engine — so
"throws iff the created window handle is null" is false. -/
theorem c8_counterexample :
    ctorOk (constructWindowNew ⟨true, false, true⟩ false 640 480 [] 0) = false ∧
    Env.createWindowOk ⟨true, false, true⟩ = true :=
  ⟨rfl, rfl⟩

/-- Claim C8, amended: the old constructor throws exactly when window
creation fails; the new constructor throws exactly when window creation
fails or, on the first construction, when GLFW or the audio engine fails
to initialise; on success both store the requested width, height, palette
and clear-colour index unchanged. -/
theorem c8_amended (env : Env) (initDone : Bool) (sizeX sizeY : Int)
    (palette : List RGBA) (clearColor : Int) :
    (ctorOk (constructWindowNew env initDone sizeX sizeY palette clearColor) = true ↔
      (env.createWindowOk = true ∧
        (initDone = true ∨ (env.glfwInitOk = true ∧ env.audioInitOk = true)))) ∧
    (∀ w, constructWindowNew env initDone sizeX sizeY palette clearColor = .ok w →
      w.m_width = sizeX ∧ w.m_height = sizeY ∧ w.m_palette = palette ∧
        w.m_clearColor = clearColor) ∧
    (ctorOk (constructWindowOld env sizeX sizeY palette clearColor) = true ↔
      env.createWindowOk = true) ∧
    (∀ w, constructWindowOld env sizeX sizeY palette clearColor = .ok w →
      w.m_width = sizeX ∧ w.m_height = sizeY ∧ w.m_palette = palette ∧
        w.m_clearColor = clearColor) := by
  obtain ⟨g, a, c⟩ := env
  cases g <;> cases a <;> cases c <;> cases initDone <;>
    refine ⟨by simp [constructWindowNew, ctorOk], ?_, by simp [constructWindowOld, ctorOk], ?_⟩ <;>
      (intro w hw
       first
        | (simp [constructWindowNew, constructWindowOld] at hw
           rw [← hw]
           exact ⟨rfl, rfl, rfl, rfl⟩)
        | simp [constructWindowNew, constructWindowOld] at hw)

/-- Claim C8, witness: with all external calls succeeding the new
constructor completes and stores the arguments unchanged; with window
creation failing the old constructor reports failure. -/
theorem c8_witness :
    (WindowRec.m_width ⟨640, 480, [⟨9, 9, 9, 9⟩], 0⟩ = 640 ∧
      WindowRec.m_height ⟨640, 480, [⟨9, 9, 9, 9⟩], 0⟩ = 480 ∧
      WindowRec.m_palette ⟨640, 480, [⟨9, 9, 9, 9⟩], 0⟩ = [⟨9, 9, 9, 9⟩] ∧
      WindowRec.m_clearColor ⟨640, 480, [⟨9, 9, 9, 9⟩], 0⟩ = 0) ∧
    (ctorOk (constructWindowOld ⟨true, true, false⟩ 640 480 [⟨9, 9, 9, 9⟩] 0) = true ↔
      Env.createWindowOk ⟨true, true, false⟩ = true) :=
  ⟨(c8_amended ⟨true, true, true⟩ false 640 480 [⟨9, 9, 9, 9⟩] 0).2.1
      ⟨640, 480, [⟨9, 9, 9, 9⟩], 0⟩ rfl,
   (c8_amended ⟨true, true, false⟩ false 640 480 [⟨9, 9, 9, 9⟩] 0).2.2.1⟩

end Mikroplot
